import Mathlib

/-!
Verification development for the EV charging-station directory application.

The definitions below are a shallow embedding of the repository's JavaScript
source into Lean 4:

* `src/js/utils.js` — `cleanStationName`, `cleanNetworkName`, `parseConnectors`,
  `processRawStations`, `getDistance`;
* `src/js/script.js` (the `filters.js` module concatenated into it) —
  `applyAllFilters`;
* `src/unnamed/part_001` (the `api.js` module) — `fetchStations` with its
  cache and three-step fallback chain;
* `src/unnamed/part_002` — `getPageSlice`;
* `src/unnamed/part_000` — the serverless proxy's parameter construction.

JavaScript-specific behaviour is made explicit:

* optional / possibly-absent values become `Option`;
* JS truthiness (`x || d`, `if (x)`) becomes explicit tests: `none` and the
  empty string are falsy for strings, `none` and `0` are falsy for numbers;
* JS numbers are modelled as `ℚ` (for data) and `ℝ` (for the Haversine
  formula, which is pure real arithmetic);
* `Math.random()`-generated id suffixes become an explicit string supply
  passed as a parameter;
* network responses, the bundled sample file and `localStorage` availability
  become an explicit environment record `FetchEnv`, and `localStorage`
  becomes an explicit `Cache` value threaded through `fetchStations`;
* `Array.prototype.sort` (stable per ES2019) becomes `List.mergeSort`.
-/

/-! ## JavaScript value helpers -/

/-- JS `s₁ || s₂` for a possibly-absent string: `undefined`/`null` and `""`
are falsy. -/
def jsOrS (o : Option String) (d : String) : String :=
  match o with
  | none => d
  | some s => if s = "" then d else s

/-- JS truthiness of a possibly-absent string (`undefined`/`null` and `""`
are falsy). -/
def truthyS (o : Option String) : Bool :=
  match o with
  | none => false
  | some s => s ≠ ""

/-- JS truthiness of a possibly-absent integer (`undefined`/`null` and `0`
are falsy). -/
def truthyI (o : Option Int) : Bool :=
  match o with
  | none => false
  | some n => n ≠ 0

/-- JS truthiness of a possibly-absent number (`undefined`/`null` and `0`
are falsy). -/
def truthyQ (o : Option ℚ) : Bool :=
  match o with
  | none => false
  | some q => q ≠ 0

/-- Does `hay` start with `needle`? -/
def listStartsWith : List Char → List Char → Bool
  | [], _ => true
  | _ :: _, [] => false
  | n :: ns, h :: hs => n = h && listStartsWith ns hs

/-- Does `needle` occur as a contiguous run inside `hay`? -/
def listContains (needle : List Char) : List Char → Bool
  | [] => needle.isEmpty
  | h :: hs => listStartsWith needle (h :: hs) || listContains needle hs

/-- JS `hay.includes(needle)`: substring containment. -/
def jsIncludes (hay needle : String) : Bool :=
  listContains needle.toList hay.toList

/-- JS `s.toLowerCase()`, character by character. -/
def jsToLower (s : String) : String :=
  String.mk (s.toList.map Char.toLower)

/-! ## Data model (`Station`, `Connector`, raw NREL records) -/

/-- A charging-port type and its count, as built by `parseConnectors`
(`src/js/utils.js`). -/
structure Connector where
  type : String
  ports : Int
deriving DecidableEq, Repr

/-- The canonical station shape produced by `processRawStations`
(`src/js/utils.js`, lines 90–109). -/
structure Station where
  id : String
  name : String
  address : String
  city : String
  state : String
  zip : String
  latitude : ℚ
  longitude : ℚ
  network : String
  connectors : List Connector
  access : String
  hours : String
  phone : String
  website : String
deriving DecidableEq, Repr

/-- A raw NREL station record, with every field the JavaScript reads modelled
as possibly absent.  `latitude`/`longitude` hold the result of JS
`parseFloat`: `none` stands for a missing or unparsable field (JS `NaN`). -/
structure RawStation where
  id : Option String
  station_name : Option String
  street_address : Option String
  city : Option String
  state : Option String
  zip : Option String
  latitude : Option ℚ
  longitude : Option ℚ
  ev_network : Option String
  ev_level1_evse_num : Option Int
  ev_level2_evse_num : Option Int
  ev_dc_fast_num : Option Int
  ev_connector_types : Option (List String)
  access_code : Option String
  access_days_time : Option String
  station_phone : Option String
  ev_network_web : Option String
deriving DecidableEq, Repr

/-! ## Normalizer (`src/js/utils.js`) -/

/-- The alternatives of the regex
`/^(EVgo|ChargePoint|Electrify America|Tesla Supercharger|ChargePoint Network|EV Connect|Shell Recharge|Blink)\s-\s/i`
in `cleanStationName`, in source order (regex alternation tries them left to
right). -/
def networkNameAlternatives : List String :=
  ["EVgo", "ChargePoint", "Electrify America", "Tesla Supercharger",
   "ChargePoint Network", "EV Connect", "Shell Recharge", "Blink"]

/-- Strip `p` from the front of `cs` case-insensitively; `none` if `cs` does
not start with `p`. -/
def stripCaseInsensitive : List Char → List Char → Option (List Char)
  | cs, [] => some cs
  | [], _ :: _ => none
  | c :: cs, p :: ps =>
      if c.toLower = p.toLower then stripCaseInsensitive cs ps else none

/-- After a matched alternative, the regex requires whitespace, `-`,
whitespace (`\s-\s`). -/
def stripDashSep : List Char → Option (List Char)
  | c1 :: '-' :: c2 :: rest =>
      if c1.isWhitespace && c2.isWhitespace then some rest else none
  | _ => none

/-- One regex alternative followed by `\s-\s`. -/
def stripAlternative (cs : List Char) (p : String) : Option (List Char) :=
  match stripCaseInsensitive cs p.toList with
  | some rest => stripDashSep rest
  | none => none

/-- The first replacement in `cleanStationName`: remove a leading network
prefix together with the `\s-\s` separator (first matching alternative). -/
def stripNetworkNamePre (cs : List Char) : List Char :=
  match networkNameAlternatives.firstM (stripAlternative cs) with
  | some rest => rest
  | none => cs

/-- The second replacement in `cleanStationName`: remove a trailing
`\sEV Station` (case sensitive). -/
def stripEVStationSuffix (cs : List Char) : List Char :=
  if 11 ≤ cs.length then
    match cs.drop (cs.length - 11) with
    | w :: rest =>
        if w.isWhitespace && rest = "EV Station".toList then
          cs.take (cs.length - 11)
        else cs
    | [] => cs
  else cs

/-- `cleanStationName` (`src/js/utils.js`, lines 24–30). -/
def cleanStationName (name : Option String) : String :=
  match name with
  | none => "Unnamed Station"
  | some s =>
      if s = "" then "Unnamed Station"
      else
        let cleaned := String.mk (stripEVStationSuffix (stripNetworkNamePre s.toList))
        let trimmed := cleaned.trim
        if trimmed = "" then "Unnamed Station" else trimmed

/-- `cleanNetworkName` (`src/js/utils.js`, lines 37–40): drop a trailing
`Network`, trim, fall back to `"Unknown Network"`. -/
def cleanNetworkName (network : Option String) : String :=
  match network with
  | none => "Unknown Network"
  | some s =>
      if s = "" then "Unknown Network"
      else
        let cs := s.toList
        let stripped :=
          if 7 ≤ cs.length ∧ cs.drop (cs.length - 7) = "Network".toList then
            String.mk (cs.take (cs.length - 7))
          else s
        let trimmed := stripped.trim
        if trimmed = "" then "Unknown Network" else trimmed

/-- The loop body of `parseConnectors` over `station.ev_connector_types`
(`src/js/utils.js`, lines 61–80). -/
def connectorTypeStep (station : RawStation) (connectors : List Connector)
    (t : String) : List Connector :=
  let portCount : Int :=
    if truthyI station.ev_level2_evse_num then station.ev_level2_evse_num.getD 0
    else if truthyI station.ev_dc_fast_num then station.ev_dc_fast_num.getD 0
    else 1
  if t = "J1772" then
    if connectors.any (fun c => c.type = "Level 2 (J1772)") then connectors
    else connectors ++ [⟨"Level 2 (J1772)", portCount⟩]
  else if t = "CHADEMO" then
    if connectors.any (fun c => c.type = "DC Fast (CHAdeMO)") then connectors
    else connectors ++ [⟨"DC Fast (CHAdeMO)", portCount⟩]
  else if t = "CCS" ∨ t = "J1772COMBO" then
    if connectors.any (fun c => jsIncludes c.type "CCS Combo") then connectors
    else connectors ++ [⟨"DC Fast (CCS Combo)", portCount⟩]
  else if t = "TESLA" then
    if connectors.any (fun c => jsIncludes c.type "Tesla Supercharger") then connectors
    else connectors ++ [⟨"Tesla Supercharger", portCount⟩]
  else connectors

/-- `parseConnectors` (`src/js/utils.js`, lines 47–83). -/
def parseConnectors (station : RawStation) : List Connector :=
  let base : List Connector :=
    (if truthyI station.ev_level1_evse_num then
      [⟨"Level 1", station.ev_level1_evse_num.getD 0⟩] else []) ++
    (if truthyI station.ev_level2_evse_num then
      [⟨"Level 2", station.ev_level2_evse_num.getD 0⟩] else []) ++
    (if truthyI station.ev_dc_fast_num then
      [⟨"DC Fast Charging", station.ev_dc_fast_num.getD 0⟩] else [])
  let connectors :=
    (station.ev_connector_types.getD []).foldl (connectorTypeStep station) base
  if connectors.length > 0 then connectors else [⟨"Unknown", 1⟩]

/-- The per-record mapping inside `processRawStations` (`src/js/utils.js`,
lines 91–108).  `rand` is the `Math.random().toString(36).substr(2, 9)`
suffix used for the id fallback. -/
def processRawStation (rand : String) (station : RawStation) : Station :=
  { id := jsOrS station.id ("unknown-" ++ rand),
    name := cleanStationName station.station_name,
    address := jsOrS station.street_address "Address not available",
    city := jsOrS station.city "Unknown City",
    state := jsOrS station.state "Unknown State",
    zip := jsOrS station.zip "",
    latitude := station.latitude.getD 0,
    longitude := station.longitude.getD 0,
    network := cleanNetworkName station.ev_network,
    connectors := parseConnectors station,
    access := jsOrS station.access_code "unknown",
    hours := jsOrS station.access_days_time "24/7",
    phone := jsOrS station.station_phone "N/A",
    website := jsOrS station.ev_network_web "" }

/-- `processRawStations` (`src/js/utils.js`, lines 90–109).  `rands` supplies
the random id suffix for the record at each position. -/
def processRawStations (rands : ℕ → String) (rawStations : List RawStation) :
    List Station :=
  rawStations.mapIdx (fun i st => processRawStation (rands i) st)

/-- A raw record with every field absent. -/
def emptyRaw : RawStation :=
  { id := none, station_name := none, street_address := none, city := none,
    state := none, zip := none, latitude := none, longitude := none,
    ev_network := none, ev_level1_evse_num := none, ev_level2_evse_num := none,
    ev_dc_fast_num := none, ev_connector_types := none, access_code := none,
    access_days_time := none, station_phone := none, ev_network_web := none }

example : processRawStation "abc123xyz" emptyRaw =
    { id := "unknown-abc123xyz", name := "Unnamed Station",
      address := "Address not available", city := "Unknown City",
      state := "Unknown State", zip := "", latitude := 0, longitude := 0,
      network := "Unknown Network", connectors := [⟨"Unknown", 1⟩],
      access := "unknown", hours := "24/7", phone := "N/A", website := "" } := by
  decide

/-! ## Configuration constants (`src/js/config.js`) -/

/-- `CONFIG.CACHE_DURATION`: one hour in milliseconds. -/
def CACHE_DURATION : Int := 1000 * 60 * 60

/-- `CONFIG.ITEMS_PER_PAGE`. -/
def ITEMS_PER_PAGE : ℕ := 20

/-- `CONFIG.DEFAULT_SEARCH_RADIUS` in miles. -/
def DEFAULT_SEARCH_RADIUS : ℚ := 50

/-- `CONFIG.MAX_INITIAL_LOAD`. -/
def MAX_INITIAL_LOAD : ℕ := 200

/-- `CONFIG.NREL_API_KEY`. -/
def NREL_API_KEY : String := "xwB0h4XAfDn0gDrtGYda9YheLlZBPFLsN7Pi8njh"

/-! ## Filter/Sort engine (`applyAllFilters`, filters module in
`src/js/script.js`, lines 398–470 of the concatenated file) -/

/-- `appState.currentFilters`. -/
structure FilterState where
  state : String
  network : String
  charger : String
  search : String
deriving DecidableEq, Repr

/-- A user location (`appState.userLocation`). -/
structure Loc where
  latitude : ℚ
  longitude : ℚ
deriving DecidableEq, Repr

/-- The search predicate of `applyAllFilters`: case-insensitive substring
match of the query against name, address, city, zip and network.  `q` is the
already-lowercased query. -/
def searchMatches (q : String) (st : Station) : Bool :=
  jsIncludes (jsToLower st.name) q || jsIncludes (jsToLower st.address) q ||
  jsIncludes (jsToLower st.city) q || jsIncludes (jsToLower st.zip) q ||
  jsIncludes (jsToLower st.network) q

/-- The `if (filters.search)` step of `applyAllFilters` (empty string is
falsy, so it matches everything). -/
def searchFilter (search : String) (stations : List Station) : List Station :=
  if search = "" then stations
  else stations.filter (searchMatches (jsToLower search))

/-- The `if (filters.state !== 'all')` step of `applyAllFilters`. -/
def stateFilter (s : String) (stations : List Station) : List Station :=
  if s = "all" then stations else stations.filter (fun st => st.state = s)

/-- The `if (filters.network !== 'all')` step of `applyAllFilters`. -/
def networkFilter (n : String) (stations : List Station) : List Station :=
  if n = "all" then stations else stations.filter (fun st => st.network = n)

/-- The connector test of the charger-type step of `applyAllFilters`. -/
def connectorMatchesCharger (chargerType : String) (c : Connector) : Bool :=
  if chargerType = "dc_fast" then jsIncludes c.type "DC Fast"
  else if chargerType = "level2" then jsIncludes c.type "Level 2"
  else if chargerType = "level1" then jsIncludes c.type "Level 1"
  else false

/-- The `if (filters.charger !== 'all')` step of `applyAllFilters`. -/
def chargerFilter (charger : String) (stations : List Station) : List Station :=
  if charger = "all" then stations
  else stations.filter (fun st => st.connectors.any (connectorMatchesCharger charger))

/-- The four predicate steps of `applyAllFilters` (search, state, network,
charger), composed in source order. -/
def predFilters (filters : FilterState) (stations : List Station) : List Station :=
  chargerFilter filters.charger
    (networkFilter filters.network
      (stateFilter filters.state
        (searchFilter filters.search stations)))

/-- The pipeline of `applyAllFilters` up to and including the conditional
geographic radius cut (`if (appState.userLocation && !appState.currentFilters.search)`).
The distance function and the radius bound are parameters, so that the engine
is stated for any distance function — the application instantiates them with
the Haversine `getDistance` and `CONFIG.DEFAULT_SEARCH_RADIUS`. -/
def filteredPipeline {β : Type} [LinearOrder β]
    (dist : Loc → ℚ → ℚ → β) (searchRadius : β)
    (allStations : List Station) (filters : FilterState)
    (userLocation : Option Loc) : List Station :=
  let t4 := predFilters filters allStations
  match userLocation with
  | some loc =>
      if filters.search = "" then
        t4.filter (fun st => decide (dist loc st.latitude st.longitude ≤ searchRadius))
      else t4
  | none => t4

/-- `applyAllFilters` (filters module, lines 398–466): the four predicate
steps, the conditional radius cut, then — whenever a user location is set —
a stable sort ascending by distance from that location. -/
def applyAllFilters {β : Type} [LinearOrder β]
    (dist : Loc → ℚ → ℚ → β) (searchRadius : β)
    (allStations : List Station) (filters : FilterState)
    (userLocation : Option Loc) : List Station :=
  let t5 := filteredPipeline dist searchRadius allStations filters userLocation
  match userLocation with
  | some loc =>
      t5.mergeSort (fun a b =>
        decide (dist loc a.latitude a.longitude ≤ dist loc b.latitude b.longitude))
  | none => t5

/-! ## Pager (`getPageSlice`, `src/unnamed/part_002`, lines 88–96) -/

/-- `PAGE_SIZE` of `src/unnamed/part_002`. -/
def PAGE_SIZE : ℕ := 12

/-- The record returned by `getPageSlice`. -/
structure PageSlice where
  slice : List Station
  page : Int
  total : ℕ
  totalPages : ℕ
deriving DecidableEq, Repr

/-- `getPageSlice`: `totalPages = Math.max(1, Math.ceil(total / PAGE_SIZE))`
(integer ceiling division), `page` clamped by
`Math.min(Math.max(1, page), totalPages)`, and the slice
`filtered.slice(start, start + PAGE_SIZE)`. -/
def getPageSlice (filtered : List Station) (page : Int) : PageSlice :=
  let total := filtered.length
  let totalPages := max 1 ((total + PAGE_SIZE - 1) / PAGE_SIZE)
  let clamped := min (max 1 page) (totalPages : Int)
  let start := ((clamped - 1) * (PAGE_SIZE : Int)).toNat
  { slice := (filtered.drop start).take PAGE_SIZE,
    page := clamped, total := total, totalPages := totalPages }

/-! ## Data source (`fetchStations`, `src/unnamed/part_001`, lines 292–403)

`localStorage` is modelled as an explicit `Cache` value.  The data keys all
start with `nrel_stations_cache`, so they never collide with the single
timestamp key `nrel_cache_time`; the cache therefore splits into a per-key
`store` and a single `time`.  Distinct `(latitude, longitude, radius)`
triples produce distinct key strings, so the string keys are modelled by the
structured type `CacheKey`.  Network responses and the sample file are
supplied by a `FetchEnv` oracle; a JSON body that failed to arrive, parse,
or that came with a non-2xx status is `none`. -/

/-- The cache key computed at lines 296–299: a per-location key when all of
latitude, longitude and radius are truthy, else the `_all` key. -/
inductive CacheKey
  | all
  | loc (latitude longitude radius : ℚ)
deriving DecidableEq, Repr

/-- `localStorage` as used by `fetchStations`: the per-query data entries
plus the single shared `nrel_cache_time` entry. -/
structure Cache where
  store : CacheKey → Option (List Station)
  time : Option ℕ

/-- The empty `localStorage`. -/
def emptyCache : Cache := { store := fun _ => none, time := none }

/-- Line 297: `latitude && longitude && radius ? perLocationKey : allKey`. -/
def cacheKeyFor (latitude longitude radius : Option ℚ) : CacheKey :=
  if truthyQ latitude && truthyQ longitude && truthyQ radius then
    CacheKey.loc (latitude.getD 0) (longitude.getD 0) (radius.getD 0)
  else CacheKey.all

/-- The parsed body of a successful proxy response
(`{ success, stations }`); `stations = none` models an absent field. -/
structure ProxyBody where
  success : Bool
  stations : Option (List RawStation)
deriving Repr

/-- The parsed body of a direct NREL response; `fuel_stations = none` models
a body without that field. -/
structure DirectBody where
  fuel_stations : Option (List RawStation)
deriving Repr

/-- The environment a `fetchStations` call runs against: the three data
sources, `localStorage` availability for the cache write, and the random id
suffixes consumed by `processRawStations`. -/
structure FetchEnv where
  proxy : Option ProxyBody
  direct : Option DirectBody
  sample : Option (List RawStation)
  storageOk : Bool
  rands : ℕ → String

/-- The three fallback steps, used to record which network requests a call
performed. -/
inductive Attempt
  | proxy
  | direct
  | sample
deriving DecidableEq, Repr

/-- The value of `data` after attempt 1 (lines 336–355): set only when the
proxy response arrived with `apiData.success && apiData.stations` truthy (an
empty `stations` array is truthy), wrapped as `{ fuel_stations: stations }`. -/
def proxyData (env : FetchEnv) : Option DirectBody :=
  match env.proxy with
  | some body =>
      if body.success && body.stations.isSome then
        some ⟨some (body.stations.getD [])⟩
      else none
  | none => none

/-- The value of `data` after attempt 2 (lines 357–373): the direct NREL
body is consulted only `if (!data)`. -/
def chainData (env : FetchEnv) : Option DirectBody :=
  match proxyData env with
  | some d => some d
  | none => env.direct

/-- The guard of attempt 3 (line 376):
`!data || !data.fuel_stations || data.fuel_stations.length === 0`. -/
def sampleNeeded (env : FetchEnv) : Bool :=
  match chainData env with
  | none => true
  | some b =>
      match b.fuel_stations with
      | none => true
      | some l => l.isEmpty

/-- The raw records of `data.fuel_stations` after the first two attempts
(meaningful when `sampleNeeded env = false`). -/
def chainStations (env : FetchEnv) : List RawStation :=
  match chainData env with
  | some b => b.fuel_stations.getD []
  | none => []

/-- What a `fetchStations` call produced: its return value (or thrown
error), the `localStorage` contents afterwards, and the network requests it
made, in order. -/
structure FetchOutcome where
  result : Except String (List Station)
  cache : Cache
  attempts : List Attempt

/-- The cache-validity test of lines 305–311: an entry is served only if the
data key is present, the shared `nrel_cache_time` entry is present, and
`now - parseInt(timestamp) < CONFIG.CACHE_DURATION`. -/
def isCacheHit (cache : Cache) (now : ℕ) (key : CacheKey) : Bool :=
  match cache.store key, cache.time with
  | some _, some t => decide ((now : Int) - (t : Int) < CACHE_DURATION)
  | _, _ => false

/-- Lines 393–400: process the raw records, then best-effort write the data
key and the shared timestamp key (both or neither, depending on storage
availability), and return the processed list. -/
def finishFetch (env : FetchEnv) (cache : Cache) (now : ℕ) (key : CacheKey)
    (stations : List Station) (attempts : List Attempt) : FetchOutcome :=
  let cache' :=
    if env.storageOk then
      { store := fun k => if k = key then some stations else cache.store k,
        time := some now }
    else cache
  { result := Except.ok stations, cache := cache', attempts := attempts }

/-- The fallback chain of lines 335–393, run on a cache miss: attempt 1
always fires; attempt 2 fires `if (!data)`; attempt 3 fires on the
`sampleNeeded` guard and throws `'Failed to load any station data.'` when
the sample file itself fails. -/
def runChain (env : FetchEnv) (cache : Cache) (now : ℕ) (key : CacheKey) :
    FetchOutcome :=
  let attempts1 :=
    [Attempt.proxy] ++ (if (proxyData env).isNone then [Attempt.direct] else [])
  if sampleNeeded env then
    match env.sample with
    | none =>
        { result := Except.error "Failed to load any station data.",
          cache := cache, attempts := attempts1 ++ [Attempt.sample] }
    | some sampleList =>
        finishFetch env cache now key
          (processRawStations env.rands sampleList)
          (attempts1 ++ [Attempt.sample])
  else
    finishFetch env cache now key
      (processRawStations env.rands (chainStations env)) attempts1

/-- `fetchStations` (lines 292–403): serve a valid cache entry with no
network access, else run the fallback chain and cache its result. -/
def fetchStations (env : FetchEnv) (cache : Cache) (now : ℕ)
    (latitude longitude radius : Option ℚ) : FetchOutcome :=
  let key := cacheKeyFor latitude longitude radius
  if isCacheHit cache now key then
    { result := Except.ok ((cache.store key).getD []), cache := cache,
      attempts := [] }
  else runChain env cache now key

/-! ## Request parameters (client lines 317–333 and the proxy handler
`src/unnamed/part_000`) -/

/-- A `URLSearchParams` value: the client appends both strings and raw
numbers. -/
inductive ParamVal
  | str (s : String)
  | num (q : ℚ)
deriving DecidableEq, Repr

/-- The query parameters `fetchStations` builds (lines 318–333): the fixed
base, then either `latitude`/`longitude`/`radius` with `limit=all` (only
when all three location arguments are truthy) or just
`limit=String(CONFIG.MAX_INITIAL_LOAD)`. -/
def buildParams (latitude longitude radius : Option ℚ) :
    List (String × ParamVal) :=
  let base :=
    [("api_key", ParamVal.str NREL_API_KEY), ("fuel_type", ParamVal.str "ELEC"),
     ("status", ParamVal.str "E"), ("format", ParamVal.str "json")]
  if truthyQ latitude && truthyQ longitude && truthyQ radius then
    base ++
      [("latitude", ParamVal.num (latitude.getD 0)),
       ("longitude", ParamVal.num (longitude.getD 0)),
       ("radius", ParamVal.num (radius.getD 0)),
       ("limit", ParamVal.str "all")]
  else
    base ++ [("limit", ParamVal.str (toString MAX_INITIAL_LOAD))]

/-- The query fields the proxy handler extracts from the incoming request
(`src/unnamed/part_000`); HTTP query values are strings. -/
structure ProxyQuery where
  latitude : Option String
  longitude : Option String
  radius : Option String
  limit : Option String
deriving DecidableEq, Repr

/-- The NREL query the proxy handler builds (`src/unnamed/part_000`, lines
19–35): fixed base with the server-side key, then — only when the incoming
query carries truthy latitude and longitude — the location fields with
`radius || '50'`, and finally `limit || '200'`. -/
def proxyNrelParams (q : ProxyQuery) (apiKey : String) :
    List (String × String) :=
  let base :=
    [("api_key", apiKey), ("fuel_type", "ELEC"), ("status", "E"),
     ("format", "json")]
  let withLoc :=
    if truthyS q.latitude && truthyS q.longitude then
      base ++
        [("latitude", q.latitude.getD ""), ("longitude", q.longitude.getD ""),
         ("radius", if truthyS q.radius then q.radius.getD "" else "50")]
    else base
  withLoc ++ [("limit", if truthyS q.limit then q.limit.getD "" else "200")]

/-! ## Geo math (`getDistance`, `src/js/utils.js`, lines 149–160)

The Haversine formula over exact real arithmetic.  `Math.atan2(y, x)` is the
argument of the complex number `x + y·i`. -/

noncomputable section

/-- JS `Math.atan2(y, x)`. -/
def atan2 (y x : ℝ) : ℝ := Complex.arg ⟨x, y⟩

/-- The intermediate value `a` of `getDistance`:
`sin(dLat/2)² + cos(lat1·π/180)·cos(lat2·π/180)·sin(dLon/2)²`. -/
def haversineA (lat1 lon1 lat2 lon2 : ℝ) : ℝ :=
  Real.sin ((lat2 - lat1) * Real.pi / 180 / 2) *
    Real.sin ((lat2 - lat1) * Real.pi / 180 / 2) +
  Real.cos (lat1 * Real.pi / 180) * Real.cos (lat2 * Real.pi / 180) *
    Real.sin ((lon2 - lon1) * Real.pi / 180 / 2) *
    Real.sin ((lon2 - lon1) * Real.pi / 180 / 2)

/-- `getDistance` (`src/js/utils.js`, lines 149–160): Haversine great-circle
distance in miles, `R * 2 * atan2(√a, √(1-a))` with Earth radius 3958.8. -/
def getDistance (lat1 lon1 lat2 lon2 : ℝ) : ℝ :=
  3958.8 *
    (2 * atan2 (Real.sqrt (haversineA lat1 lon1 lat2 lon2))
      (Real.sqrt (1 - haversineA lat1 lon1 lat2 lon2)))

end

/-! ## Helper lemmas -/

lemma ite_length_ne_nil (l : List Connector) :
    (if l.length > 0 then l else [⟨"Unknown", 1⟩]) ≠ [] := by
  split
  · next h => exact List.length_pos.mp h
  · simp

lemma parseConnectors_ne_nil (station : RawStation) :
    parseConnectors station ≠ [] := by
  dsimp only [parseConnectors]
  exact ite_length_ne_nil _

lemma connectors_ne_nil_of_mem (raws : List RawStation) :
    ∀ (rands : ℕ → String) (st : Station),
      st ∈ processRawStations rands raws → st.connectors ≠ [] := by
  induction raws with
  | nil =>
      intro rands st h
      simp [processRawStations] at h
  | cons raw rest ih =>
      intro rands st h
      simp only [processRawStations, List.mapIdx_cons] at h
      rcases List.mem_cons.mp h with h1 | h2
      · rw [h1]
        exact parseConnectors_ne_nil raw
      · exact ih (fun i => rands (i + 1)) st h2

lemma processRawStation_rand_irrel (raw : RawStation)
    (h : truthyS raw.id = true) (r1 r2 : String) :
    processRawStation r1 raw = processRawStation r2 raw := by
  cases hid : raw.id with
  | none => rw [hid] at h; simp [truthyS] at h
  | some s =>
      rw [hid] at h
      simp only [truthyS, decide_eq_true_eq] at h
      simp [processRawStation, jsOrS, hid, h]

lemma natCeilDiv_pageSize (n : ℕ) :
    (n + PAGE_SIZE - 1) / PAGE_SIZE = ⌈(n : ℚ) / (PAGE_SIZE : ℚ)⌉₊ := by
  have hps : PAGE_SIZE = 12 := rfl
  rw [hps]
  have h12 : ((12 : ℕ) : ℚ) = (12 : ℚ) := by norm_num
  rw [h12]
  rcases Nat.eq_zero_or_pos n with hn | hn
  · subst hn; simp
  · set q := (n + 12 - 1) / 12 with hq
    have hq1 : n ≤ 12 * q := by omega
    have hq2 : 12 * (q - 1) < n := by omega
    have hqpos : q ≠ 0 := by omega
    symm
    rw [Nat.ceil_eq_iff hqpos]
    constructor
    · rw [lt_div_iff₀ (by norm_num : (0:ℚ) < 12)]
      calc ((q - 1 : ℕ) : ℚ) * 12 = ((12 * (q - 1) : ℕ) : ℚ) := by push_cast; ring
        _ < n := by exact_mod_cast hq2
    · rw [div_le_iff₀ (by norm_num : (0:ℚ) < 12)]
      calc (n : ℚ) ≤ ((12 * q : ℕ) : ℚ) := by exact_mod_cast hq1
        _ = (q : ℚ) * 12 := by push_cast; ring

lemma complexMk_one_zero : (⟨1, 0⟩ : ℂ) = 1 := by
  simp [Complex.ext_iff]

lemma getDistance_self (lat lon : ℝ) : getDistance lat lon lat lon = 0 := by
  unfold getDistance haversineA atan2
  simp only [sub_self, zero_mul, zero_div, Real.sin_zero, mul_zero, add_zero,
    zero_add, Real.sqrt_zero, sub_zero, Real.sqrt_one]
  rw [complexMk_one_zero, Complex.arg_one]
  ring

lemma haversineA_swap (lat1 lon1 lat2 lon2 : ℝ) :
    haversineA lat1 lon1 lat2 lon2 = haversineA lat2 lon2 lat1 lon1 := by
  unfold haversineA
  rw [show (lat1 - lat2) * Real.pi / 180 / 2 =
        -((lat2 - lat1) * Real.pi / 180 / 2) from by ring,
      show (lon1 - lon2) * Real.pi / 180 / 2 =
        -((lon2 - lon1) * Real.pi / 180 / 2) from by ring,
      Real.sin_neg, Real.sin_neg]
  ring

lemma getDistance_swap (lat1 lon1 lat2 lon2 : ℝ) :
    getDistance lat1 lon1 lat2 lon2 = getDistance lat2 lon2 lat1 lon1 := by
  unfold getDistance
  rw [haversineA_swap lat2 lon2 lat1 lon1]

lemma getDistance_nonneg (lat1 lon1 lat2 lon2 : ℝ) :
    0 ≤ getDistance lat1 lon1 lat2 lon2 := by
  unfold getDistance atan2
  have harg : 0 ≤ Complex.arg
      ⟨Real.sqrt (1 - haversineA lat1 lon1 lat2 lon2),
       Real.sqrt (haversineA lat1 lon1 lat2 lon2)⟩ := by
    rw [Complex.arg_nonneg_iff]
    exact Real.sqrt_nonneg _
  have h2 : (0:ℝ) ≤ 3958.8 := by norm_num
  exact mul_nonneg h2 (mul_nonneg (by norm_num) harg)

/-! ## Claims -/

/-- C9: for every point `a`, `getDistance(a, a) = 0`; `getDistance` is
symmetric under swapping the two coordinate pairs; and its output is
non-negative. -/
theorem getDistance_identity_symm_nonneg :
    (∀ lat lon : ℝ, getDistance lat lon lat lon = 0) ∧
    (∀ lat1 lon1 lat2 lon2 : ℝ,
      getDistance lat1 lon1 lat2 lon2 = getDistance lat2 lon2 lat1 lon1) ∧
    (∀ lat1 lon1 lat2 lon2 : ℝ, 0 ≤ getDistance lat1 lon1 lat2 lon2) :=
  ⟨getDistance_self, getDistance_swap, getDistance_nonneg⟩

/-- C6: for every filtered sequence and requested page, `getPageSlice`
computes `totalPages = max(1, ceil(length / pageSize))` and clamps the
current page into `[1, totalPages]`; it never reports a page outside that
range, and `totalPages` is at least 1 even for an empty sequence. -/
theorem getPageSlice_totalPages_clamped (filtered : List Station) (page : Int) :
    (getPageSlice filtered page).totalPages =
      max 1 ⌈(filtered.length : ℚ) / (PAGE_SIZE : ℚ)⌉₊ ∧
    1 ≤ (getPageSlice filtered page).page ∧
    (getPageSlice filtered page).page ≤
      ((getPageSlice filtered page).totalPages : Int) ∧
    1 ≤ (getPageSlice filtered page).totalPages := by
  dsimp only [getPageSlice]
  refine ⟨by rw [natCeilDiv_pageSize], ?_, min_le_right _ _, le_max_left _ _⟩
  refine le_min (le_max_left _ _) ?_
  have h1 : 1 ≤ max 1 ((filtered.length + PAGE_SIZE - 1) / PAGE_SIZE) :=
    le_max_left _ _
  exact_mod_cast h1

/-- C7: normalization is total — on a raw record with every optional field
absent it produces exactly the documented fallback Station (placeholder
strings, coordinates 0, a single synthesized `Unknown` connector) — and for
every raw record the normalized `connectors` list is non-empty. -/
theorem processRawStations_defaults_connectors :
    (∀ rand : String, processRawStation rand emptyRaw =
      { id := "unknown-" ++ rand, name := "Unnamed Station",
        address := "Address not available", city := "Unknown City",
        state := "Unknown State", zip := "", latitude := 0, longitude := 0,
        network := "Unknown Network", connectors := [⟨"Unknown", 1⟩],
        access := "unknown", hours := "24/7", phone := "N/A",
        website := "" }) ∧
    (∀ (rands : ℕ → String) (raws : List RawStation) (st : Station),
      st ∈ processRawStations rands raws → st.connectors ≠ []) :=
  ⟨fun _ => rfl, fun rands raws st h => connectors_ne_nil_of_mem raws rands st h⟩

/-- C10: on records whose source `id` is present and non-empty, normalization
does not consult the random id supply: two runs with different random
supplies produce identical station lists. -/
theorem processRawStations_deterministic (raws : List RawStation)
    (r1 r2 : ℕ → String) (hid : ∀ raw ∈ raws, truthyS raw.id = true) :
    processRawStations r1 raws = processRawStations r2 raws := by
  induction raws generalizing r1 r2 with
  | nil => rfl
  | cons raw rest ih =>
      simp only [processRawStations, List.mapIdx_cons]
      have h0 : truthyS raw.id = true := hid raw (List.mem_cons_self raw rest)
      have hrest : ∀ r ∈ rest, truthyS r.id = true :=
        fun r hr => hid r (List.mem_cons_of_mem raw hr)
      exact congrArg₂ List.cons (processRawStation_rand_irrel raw h0 (r1 0) (r2 0))
        (ih (fun i => r1 (i + 1)) (fun i => r2 (i + 1)) hrest)

/-! ### Concrete records used by witnesses -/

/-- A raw record carrying an id and a name. -/
def rawA : RawStation :=
  { emptyRaw with id := some "a1", station_name := some "Alpha" }

/-- Witness for C10 at a concrete input. -/
theorem processRawStations_deterministic_witness :
    (∀ raw ∈ [rawA], truthyS raw.id = true) ∧
    processRawStations (fun _ => "x") [rawA] =
      processRawStations (fun _ => "y") [rawA] :=
  ⟨by decide, processRawStations_deterministic [rawA] (fun _ => "x")
    (fun _ => "y") (by decide)⟩

/-- Witness for C7 at a concrete input. -/
lemma searchFilter_sublist (s : String) (l : List Station) :
    (searchFilter s l).Sublist l := by
  unfold searchFilter
  split
  · exact List.Sublist.refl l
  · exact List.filter_sublist l

lemma stateFilter_sublist (s : String) (l : List Station) :
    (stateFilter s l).Sublist l := by
  unfold stateFilter
  split
  · exact List.Sublist.refl l
  · exact List.filter_sublist l

lemma networkFilter_sublist (n : String) (l : List Station) :
    (networkFilter n l).Sublist l := by
  unfold networkFilter
  split
  · exact List.Sublist.refl l
  · exact List.filter_sublist l

lemma chargerFilter_sublist (c : String) (l : List Station) :
    (chargerFilter c l).Sublist l := by
  unfold chargerFilter
  split
  · exact List.Sublist.refl l
  · exact List.filter_sublist l

lemma predFilters_sublist (filters : FilterState) (stations : List Station) :
    (predFilters filters stations).Sublist stations :=
  ((chargerFilter_sublist _ _).trans (networkFilter_sublist _ _)).trans
    ((stateFilter_sublist _ _).trans (searchFilter_sublist _ _))

lemma filteredPipeline_sublist {β : Type} [LinearOrder β]
    (dist : Loc → ℚ → ℚ → β) (searchRadius : β) (stations : List Station)
    (filters : FilterState) (userLocation : Option Loc) :
    (filteredPipeline dist searchRadius stations filters userLocation).Sublist
      stations := by
  unfold filteredPipeline
  match userLocation with
  | some loc =>
      dsimp only
      split
      · exact (List.filter_sublist _).trans (predFilters_sublist _ _)
      · exact predFilters_sublist _ _
  | none => exact predFilters_sublist _ _

/-- C4: with a non-empty search text the geographic radius cut is not
applied — membership in the output of `applyAllFilters` coincides with
membership after the four predicate filters alone, for every distance
function, so a station farther than the radius still appears when it matches
the search.  The radius cut is applied exactly when a user location is set
and the search text is empty. -/
theorem applyAllFilters_radius_only_when {β : Type} [LinearOrder β]
    (dist : Loc → ℚ → ℚ → β) (searchRadius : β) (stations : List Station)
    (filters : FilterState) (loc : Loc) :
    (filters.search ≠ "" →
      ∀ st : Station,
        st ∈ applyAllFilters dist searchRadius stations filters (some loc) ↔
        st ∈ predFilters filters stations) ∧
    (applyAllFilters dist searchRadius stations filters none =
      predFilters filters stations) ∧
    (filters.search = "" →
      ∀ st : Station,
        st ∈ applyAllFilters dist searchRadius stations filters (some loc) ↔
        (st ∈ predFilters filters stations ∧
          dist loc st.latitude st.longitude ≤ searchRadius)) := by
  refine ⟨?_, rfl, ?_⟩
  · intro h st
    show st ∈ (filteredPipeline dist searchRadius stations filters
      (some loc)).mergeSort _ ↔ _
    rw [List.mem_mergeSort]
    unfold filteredPipeline
    dsimp only
    rw [if_neg h]
  · intro h st
    show st ∈ (filteredPipeline dist searchRadius stations filters
      (some loc)).mergeSort _ ↔ _
    rw [List.mem_mergeSort]
    unfold filteredPipeline
    dsimp only
    rw [if_pos h, List.mem_filter, decide_eq_true_eq]

/-- C5: when a user location is set, the output of `applyAllFilters` is a
permutation of the filtered pipeline (the predicate filters plus the
conditional radius cut), is a sub-permutation of the input (no records
invented), and is sorted ascending by the distance from the user location —
whether or not the radius cut was applied. -/
theorem applyAllFilters_sorted_subperm {β : Type} [LinearOrder β]
    (dist : Loc → ℚ → ℚ → β) (searchRadius : β) (stations : List Station)
    (filters : FilterState) (loc : Loc) :
    (applyAllFilters dist searchRadius stations filters (some loc)).Perm
      (filteredPipeline dist searchRadius stations filters (some loc)) ∧
    (applyAllFilters dist searchRadius stations filters (some loc)).Subperm
      stations ∧
    (applyAllFilters dist searchRadius stations filters (some loc)).Sorted
      (fun a b =>
        dist loc a.latitude a.longitude ≤ dist loc b.latitude b.longitude) := by
  have hperm : (applyAllFilters dist searchRadius stations filters
      (some loc)).Perm
      (filteredPipeline dist searchRadius stations filters (some loc)) :=
    List.mergeSort_perm _ _
  refine ⟨hperm, ?_, ?_⟩
  · exact ⟨filteredPipeline dist searchRadius stations filters (some loc),
      hperm.symm, filteredPipeline_sublist dist searchRadius stations filters
        (some loc)⟩
  · have hs := @List.sorted_mergeSort Station
      (fun a b : Station =>
        decide (dist loc a.latitude a.longitude ≤ dist loc b.latitude b.longitude))
      (fun a b c hab hbc => by
        simp only [decide_eq_true_eq] at hab hbc ⊢
        exact le_trans hab hbc)
      (fun a b => by
        simp only [Bool.or_eq_true, decide_eq_true_eq]
        exact le_total _ _)
      (filteredPipeline dist searchRadius stations filters (some loc))
    exact hs.imp (fun hab => of_decide_eq_true hab)

lemma runChain_attempts (env : FetchEnv) (c : Cache) (now : ℕ) (key : CacheKey) :
    (runChain env c now key).attempts =
      [Attempt.proxy] ++
        (if (proxyData env).isNone then [Attempt.direct] else []) ++
        (if sampleNeeded env then [Attempt.sample] else []) := by
  unfold runChain finishFetch
  by_cases hs : sampleNeeded env = true
  · cases env.sample <;> simp [hs]
  · simp at hs
    simp [hs]

lemma sample_mem_runChain (env : FetchEnv) (c : Cache) (now : ℕ) (key : CacheKey) :
    Attempt.sample ∈ (runChain env c now key).attempts ↔
      sampleNeeded env = true := by
  rw [runChain_attempts]
  by_cases hp : (proxyData env).isNone = true <;>
    by_cases hs : sampleNeeded env = true <;> simp [hp, hs]

lemma runChain_ok_result (env : FetchEnv) (c : Cache) (now : ℕ) (key : CacheKey)
    (hsn : sampleNeeded env = false) :
    (runChain env c now key).result =
      Except.ok (processRawStations env.rands (chainStations env)) := by
  simp [runChain, finishFetch, hsn]

lemma runChain_sample_ok_result (env : FetchEnv) (c : Cache) (now : ℕ)
    (key : CacheKey) (sl : List RawStation)
    (hs : sampleNeeded env = true) (hsl : env.sample = some sl) :
    (runChain env c now key).result =
      Except.ok (processRawStations env.rands sl) := by
  simp [runChain, finishFetch, hs, hsl]

lemma runChain_sample_fail_result (env : FetchEnv) (c : Cache) (now : ℕ)
    (key : CacheKey) (hs : sampleNeeded env = true) (hn : env.sample = none) :
    (runChain env c now key).result =
      Except.error "Failed to load any station data." := by
  simp [runChain, hs, hn]

lemma fetchStations_miss (env : FetchEnv) (cache : Cache) (now : ℕ)
    (lat lon r : Option ℚ)
    (hmiss : isCacheHit cache now (cacheKeyFor lat lon r) = false) :
    fetchStations env cache now lat lon r =
      runChain env cache now (cacheKeyFor lat lon r) := by
  simp [fetchStations, hmiss]

lemma runChain_ok_cache (env : FetchEnv) (c : Cache) (now : ℕ) (key : CacheKey)
    (sts : List Station) (c' : Cache) (tr : List Attempt)
    (hst : env.storageOk = true)
    (h : runChain env c now key = ⟨Except.ok sts, c', tr⟩) :
    c'.store key = some sts ∧ c'.time = some now := by
  by_cases hs : sampleNeeded env = true
  · cases hsample : env.sample with
    | none => simp [runChain, hs, hsample] at h
    | some sl =>
        simp only [runChain, finishFetch, hs, hsample, hst, if_true,
          FetchOutcome.mk.injEq, Except.ok.injEq] at h
        obtain ⟨h1, h2, h3⟩ := h
        rw [← h2]
        constructor
        · simp [h1]
        · rfl
  · simp only [Bool.not_eq_true] at hs
    simp only [runChain, finishFetch, hs, hst, Bool.false_eq_true, if_false,
      if_true, FetchOutcome.mk.injEq, Except.ok.injEq] at h
    obtain ⟨h1, h2, h3⟩ := h
    rw [← h2]
    constructor
    · simp [h1]
    · rfl

/-- C1: on a cache miss the sources are tried in the fixed order proxy,
direct, sample; a proxy delivery with a non-empty station list stops the
chain at the proxy; the direct API is consulted exactly when the proxy
delivered nothing; the sample file is consulted (after a proxy failure)
exactly when the direct API failed, returned a body without
`fuel_stations`, or returned zero records; a reached-and-failed sample load
makes the whole call fail with the fatal error; and a reached-and-loaded
sample is what the call returns. -/
theorem fetchStations_fallback_chain (env : FetchEnv) (cache : Cache)
    (now : ℕ) (lat lon r : Option ℚ)
    (hmiss : isCacheHit cache now (cacheKeyFor lat lon r) = false) :
    ((fetchStations env cache now lat lon r).attempts.Sublist
        [Attempt.proxy, Attempt.direct, Attempt.sample] ∧
      Attempt.proxy ∈ (fetchStations env cache now lat lon r).attempts) ∧
    (∀ l : List RawStation, proxyData env = some ⟨some l⟩ → l ≠ [] →
      (fetchStations env cache now lat lon r).attempts = [Attempt.proxy] ∧
      (fetchStations env cache now lat lon r).result =
        Except.ok (processRawStations env.rands l)) ∧
    (Attempt.direct ∈ (fetchStations env cache now lat lon r).attempts ↔
      proxyData env = none) ∧
    (proxyData env = none →
      (Attempt.sample ∈ (fetchStations env cache now lat lon r).attempts ↔
        (env.direct = none ∨ ∃ db, env.direct = some db ∧
          (db.fuel_stations = none ∨ db.fuel_stations = some [])))) ∧
    (Attempt.sample ∈ (fetchStations env cache now lat lon r).attempts →
      env.sample = none →
      (fetchStations env cache now lat lon r).result =
        Except.error "Failed to load any station data.") ∧
    (∀ sl : List RawStation,
      Attempt.sample ∈ (fetchStations env cache now lat lon r).attempts →
      env.sample = some sl →
      (fetchStations env cache now lat lon r).result =
        Except.ok (processRawStations env.rands sl)) := by
  rw [fetchStations_miss env cache now lat lon r hmiss]
  refine ⟨⟨?_, ?_⟩, ?_, ?_, ?_, ?_, ?_⟩
  · rw [runChain_attempts]
    by_cases hp : (proxyData env).isNone = true <;>
      by_cases hs : sampleNeeded env = true <;>
        simp [hp, hs]
  · rw [runChain_attempts]; simp
  · intro l hp hl
    have hsn : sampleNeeded env = false := by
      unfold sampleNeeded chainData
      rw [hp]
      simp [List.isEmpty_iff, hl]
    have hcs : chainStations env = l := by
      unfold chainStations chainData
      rw [hp]
      rfl
    constructor
    · rw [runChain_attempts]; simp [hp, hsn]
    · rw [runChain_ok_result env cache now _ hsn, hcs]
  · rw [runChain_attempts]
    cases hpd : proxyData env with
    | none => by_cases hs : sampleNeeded env = true <;> simp [hs]
    | some d => by_cases hs : sampleNeeded env = true <;> simp [hs]
  · intro hpd
    rw [sample_mem_runChain]
    unfold sampleNeeded chainData
    rw [hpd]
    cases hdir : env.direct with
    | none => simp
    | some db =>
        cases hfs : db.fuel_stations with
        | none => simp [hfs]
        | some fl => simp [hfs, List.isEmpty_iff]
  · intro hmem hn
    exact runChain_sample_fail_result env cache now _
      ((sample_mem_runChain env cache now _).mp hmem) hn
  · intro sl hmem hsl
    exact runChain_sample_ok_result env cache now _ sl
      ((sample_mem_runChain env cache now _).mp hmem) hsl

/-- C2: after a cache-missing call stored its result (with storage
available), a second call with the same parameters within the freshness
window returns the identical station list, leaves the cache untouched, and
performs no fallback step at all (its attempt list is empty), whatever its
own environment would have answered. -/
theorem fetchStations_cache_roundtrip (env1 env2 : FetchEnv) (c0 c1 : Cache)
    (now now2 : ℕ) (lat lon r : Option ℚ) (sts : List Station)
    (tr : List Attempt)
    (hmiss : isCacheHit c0 now (cacheKeyFor lat lon r) = false)
    (hst : env1.storageOk = true)
    (h1 : fetchStations env1 c0 now lat lon r = ⟨Except.ok sts, c1, tr⟩)
    (hfresh : (now2 : Int) - (now : Int) < CACHE_DURATION) :
    fetchStations env2 c1 now2 lat lon r = ⟨Except.ok sts, c1, []⟩ := by
  rw [fetchStations_miss env1 c0 now lat lon r hmiss] at h1
  obtain ⟨hstore, htime⟩ := runChain_ok_cache env1 c0 now _ sts c1 tr hst h1
  have hhit : isCacheHit c1 now2 (cacheKeyFor lat lon r) = true := by
    unfold isCacheHit
    rw [hstore, htime]
    simp [hfresh]
  simp [fetchStations, hhit, hstore]

/-- C3 (amended): the freshness test compares `now` with the single shared
`nrel_cache_time` value, not with a per-entry capture time — whenever the
requested key has data and the shared timestamp is less than an hour old,
the entry is served with no network access, regardless of when that entry
itself was captured. -/
theorem fetchStations_shared_timestamp (env : FetchEnv) (c : Cache) (now : ℕ)
    (lat lon r : Option ℚ) (data : List Station) (t : ℕ)
    (hd : c.store (cacheKeyFor lat lon r) = some data)
    (ht : c.time = some t)
    (hfresh : (now : Int) - (t : Int) < CACHE_DURATION) :
    fetchStations env c now lat lon r = ⟨Except.ok data, c, []⟩ := by
  have hhit : isCacheHit c now (cacheKeyFor lat lon r) = true := by
    unfold isCacheHit
    rw [hd, ht]
    simp [hfresh]
  simp [fetchStations, hhit, hd]

/-! ### Concrete fetch scenarios -/

/-- An environment whose proxy delivers the raw records `l`. -/
def envDeliver (l : List RawStation) : FetchEnv :=
  { proxy := some ⟨true, some l⟩, direct := none, sample := none,
    storageOk := true, rands := fun _ => "r" }

/-- An environment in which every data source fails. -/
def envAllFail : FetchEnv :=
  { proxy := none, direct := none, sample := none, storageOk := true,
    rands := fun _ => "r" }

/-- A second raw record, distinguishable from `rawA`. -/
def rawB : RawStation := { emptyRaw with id := some "b1" }

/-- The normalized list the first scenario call stores under the `_all`
key at time 0. -/
def stationsA : List Station := processRawStations (fun _ => "r") [rawA]

/-- Cache after a broad fetch at time 0 (stores `stationsA` under the
`_all` key, timestamp 0). -/
def c3AfterFirst : Cache :=
  (fetchStations (envDeliver [rawA]) emptyCache 0 none none none).cache

/-- Cache after a location fetch at time 3,000,000 ms (50 min): stores a
different entry under a location key and overwrites the shared timestamp. -/
def c3AfterSecond : Cache :=
  (fetchStations (envDeliver [rawB]) c3AfterFirst 3000000
    (some 1) (some 2) (some 3)).cache

/-- A third call for the `_all` key at time 4,300,000 ms — the `_all` entry
is then 4,300,000 ms old, beyond the 3,600,000 ms cache duration. -/
def c3Third : FetchOutcome :=
  fetchStations envAllFail c3AfterSecond 4300000 none none none

/-- C3 (counterexample): the claim says an entry whose own capture time is
more than an hour old is never served.  Here the `_all` entry captured at
time 0 is served at time 4,300,000 ms (with no fallback step run) because an
interleaved fetch for a different key refreshed the single shared
timestamp. -/
theorem fetchStations_stale_entry_served :
    c3Third.result = Except.ok stationsA ∧
    c3Third.attempts = [] ∧
    CACHE_DURATION ≤ (4300000 : Int) - (0 : Int) := by
  refine ⟨rfl, rfl, by decide⟩

/-- A cache holding one `_all` entry and a shared timestamp of 5 ms. -/
def cacheShared : Cache :=
  { store := fun k => if k = CacheKey.all then some stationsA else none,
    time := some 5 }

/-- Witness for the amended C3 at a concrete input. -/
theorem fetchStations_shared_timestamp_witness :
    cacheShared.store (cacheKeyFor none none none) = some stationsA ∧
    cacheShared.time = some 5 ∧
    ((10 : Int) - (5 : Int) < CACHE_DURATION) ∧
    fetchStations envAllFail cacheShared 10 none none none =
      ⟨Except.ok stationsA, cacheShared, []⟩ :=
  ⟨rfl, rfl, by decide,
    fetchStations_shared_timestamp envAllFail cacheShared
      10 none none none stationsA 5 rfl rfl (by decide)⟩

/-- Cache after the witness's first round-trip call. -/
def cacheW : Cache :=
  (fetchStations (envDeliver [rawA]) emptyCache 0 none none none).cache

/-- Witness for C2 at a concrete input. -/
theorem fetchStations_cache_roundtrip_witness :
    isCacheHit emptyCache 0 (cacheKeyFor none none none) = false ∧
    (envDeliver [rawA]).storageOk = true ∧
    fetchStations (envDeliver [rawA]) emptyCache 0 none none none =
      ⟨Except.ok stationsA, cacheW, [Attempt.proxy]⟩ ∧
    ((1000 : Int) - (0 : Int) < CACHE_DURATION) ∧
    fetchStations envAllFail cacheW 1000 none none none =
      ⟨Except.ok stationsA, cacheW, []⟩ :=
  ⟨by decide, rfl, rfl, by decide,
    fetchStations_cache_roundtrip (envDeliver [rawA]) envAllFail emptyCache
      cacheW 0 1000 none none none stationsA [Attempt.proxy] (by decide) rfl
      rfl (by decide)⟩

/-- The environment of the spec's end-to-end scenario: the proxy fails, the
direct API answers with `fuel_stations: []`, the sample file loads. -/
def envEndToEnd : FetchEnv :=
  { proxy := none, direct := some ⟨some []⟩, sample := some [rawA],
    storageOk := true, rands := fun _ => "r" }

/-- Witness for C1 at a concrete input: proxy fails, the direct API returns
zero records, the sample dataset is loaded and used. -/
theorem fetchStations_fallback_chain_witness :
    isCacheHit emptyCache 0 (cacheKeyFor none none none) = false ∧
    (Attempt.direct ∈
        (fetchStations envEndToEnd emptyCache 0 none none none).attempts ↔
      proxyData envEndToEnd = none) ∧
    (fetchStations envEndToEnd emptyCache 0 none none none).result =
      Except.ok (processRawStations (fun _ => "r") [rawA]) := by
  refine ⟨by decide,
    (fetchStations_fallback_chain envEndToEnd emptyCache 0 none none none
      (by decide)).2.2.1, ?_⟩
  refine (fetchStations_fallback_chain envEndToEnd emptyCache 0 none none none
    (by decide)).2.2.2.2.2 [rawA] ?_ rfl
  rw [show (fetchStations envEndToEnd emptyCache 0 none none none).attempts =
    [Attempt.proxy, Attempt.direct, Attempt.sample] from rfl]
  simp

/-- C8 (amended): `fetchStations` sends the location triple with
`limit=all` only when latitude, longitude and radius are all truthy;
otherwise — including a call with latitude and longitude but no radius — it
sends no location parameters at all and `limit=200`.  The 50-mile radius
default lives in the proxy handler, which applies it when its own query
carries truthy latitude and longitude without a truthy radius; the proxy
also defaults `limit` to 200 when absent. -/
theorem params_radius_limit_defaults (lat lon r : Option ℚ) (q : ProxyQuery)
    (key : String) :
    ((truthyQ lat && truthyQ lon && truthyQ r) = true →
      (buildParams lat lon r).lookup "radius" =
        some (ParamVal.num (r.getD 0)) ∧
      (buildParams lat lon r).lookup "limit" = some (ParamVal.str "all")) ∧
    ((truthyQ lat && truthyQ lon && truthyQ r) = false →
      (buildParams lat lon r).lookup "radius" = none ∧
      (buildParams lat lon r).lookup "latitude" = none ∧
      (buildParams lat lon r).lookup "limit" = some (ParamVal.str "200")) ∧
    ((truthyS q.latitude && truthyS q.longitude) = true →
      truthyS q.radius = false →
      (proxyNrelParams q key).lookup "radius" = some "50") ∧
    (truthyS q.limit = false →
      (proxyNrelParams q key).lookup "limit" = some "200") := by
  refine ⟨?_, ?_, ?_, ?_⟩
  · intro h
    unfold buildParams
    rw [if_pos h]
    exact ⟨rfl, rfl⟩
  · intro h
    unfold buildParams
    rw [if_neg (by simp [h])]
    exact ⟨rfl, rfl, rfl⟩
  · intro hloc hr
    unfold proxyNrelParams
    dsimp only
    rw [if_pos hloc, hr]
    rfl
  · intro hlim
    unfold proxyNrelParams
    dsimp only
    rw [hlim]
    by_cases hloc : (truthyS q.latitude && truthyS q.longitude) = true
    · rw [if_pos hloc]
      rfl
    · rw [if_neg hloc]
      rfl

/-- C8 (counterexample): a call with latitude and longitude supplied but no
radius sends no `radius` (hence no 50-mile default) and no `latitude`
either — it degenerates to the broad load with `limit=200`. -/
theorem buildParams_no_radius_default :
    (buildParams (some 37) (some (-122)) none).lookup "radius" = none ∧
    (buildParams (some 37) (some (-122)) none).lookup "latitude" = none ∧
    (buildParams (some 37) (some (-122)) none).lookup "limit" =
      some (ParamVal.str "200") := by
  refine ⟨by decide, by decide, by decide⟩

/-- Witness for the amended C8 at a concrete input. -/
theorem params_radius_limit_defaults_witness :
    ((truthyQ (some 1) && truthyQ (some 2) && truthyQ none) = false) ∧
    (buildParams (some 1) (some 2) none).lookup "limit" =
      some (ParamVal.str "200") :=
  ⟨by decide,
    ((params_radius_limit_defaults (some 1) (some 2) none
      ⟨none, none, none, none⟩ "k").2.1 (by decide)).2.2⟩

/-- A station far from the origin whose name matches the search text. -/
def stFar : Station :=
  { id := "a1", name := "Alpha Charging", address := "1 Main St",
    city := "Springfield", state := "CA", zip := "90001", latitude := 40,
    longitude := -100, network := "EVgo", connectors := [⟨"Level 2", 4⟩],
    access := "public", hours := "24/7", phone := "N/A", website := "" }

/-- A filter state with only a free-text search active. -/
def filtersSearch : FilterState :=
  { state := "all", network := "all", charger := "all", search := "alpha" }

/-- A distance function reporting every station 100 miles away — beyond the
50-mile default radius. -/
def farDist : Loc → ℚ → ℚ → ℚ := fun _ _ _ => 100

/-- Witness for C4 at a concrete input: the search text is non-empty, the
station passes the predicate filters, and by the theorem it therefore
appears in the output even though its distance (100) exceeds the radius
bound (50). -/
theorem applyAllFilters_radius_only_when_witness :
    filtersSearch.search ≠ "" ∧
    predFilters filtersSearch [stFar] = [stFar] ∧
    (stFar ∈ applyAllFilters farDist DEFAULT_SEARCH_RADIUS [stFar]
        filtersSearch (some ⟨0, 0⟩) ↔
      stFar ∈ predFilters filtersSearch [stFar]) :=
  ⟨by decide, by decide,
    (applyAllFilters_radius_only_when farDist DEFAULT_SEARCH_RADIUS [stFar]
      filtersSearch ⟨0, 0⟩).1 (by decide) stFar⟩

theorem processRawStations_defaults_connectors_witness :
    processRawStation "r" rawA ∈ processRawStations (fun _ => "r") [rawA] ∧
    (processRawStation "r" rawA).connectors ≠ [] :=
  ⟨List.mem_singleton_self _, processRawStations_defaults_connectors.2
    (fun _ => "r") [rawA] (processRawStation "r" rawA)
    (List.mem_singleton_self _)⟩

